import Mathlib

/-!
Verification of the battery-state engine of cbatticon-apm (src/cbatticon.c).

Shallow embedding conventions:
* C `gint` is modelled as `Int`; `gdouble` as `ℚ` (all values reaching the
  estimator in the verified scenarios are exact small rationals); the cast
  `(gint)` of a nonnegative-denominator rational truncates toward zero.
* The C enum { MISSING, UNKNOWN, CHARGED, CHARGING, DISCHARGING, NOTCHARGING,
  LOW_LEVEL, CRITICAL_LEVEL } keeps its integer values.
* Static process-wide variables (the estimation memo and the latch variables
  of update_tray_icon_status) become explicit state records threaded through
  step functions; the GTimer is modelled by passing the elapsed seconds that
  g_timer_elapsed would return as an input of each call, with g_timer_start
  restarting the elapsed count.
* Functions that only write through out-pointers and return TRUE are modelled
  as pure functions returning their outputs.
-/

/-- The relevant fields of the `apm_info` sample from <apm.h> as read by
`apm_read`.  `battery_flags` is a nonnegative bit field (bit 3 = charging). -/
structure apm_info where
  battery_status : Int
  battery_percentage : Int
  battery_flags : Nat
  battery_time : Int
  using_minutes : Bool
deriving DecidableEq, Repr

/-- Enum value MISSING = 0. -/
abbrev MISSING : Int := 0
/-- Enum value UNKNOWN = 1. -/
abbrev UNKNOWN : Int := 1
/-- Enum value CHARGED = 2. -/
abbrev CHARGED : Int := 2
/-- Enum value CHARGING = 3. -/
abbrev CHARGING : Int := 3
/-- Enum value DISCHARGING = 4. -/
abbrev DISCHARGING : Int := 4
/-- Enum value NOTCHARGING = 5. -/
abbrev NOTCHARGING : Int := 5
/-- Enum value LOW_LEVEL = 6. -/
abbrev LOW_LEVEL : Int := 6
/-- Enum value CRITICAL_LEVEL = 7. -/
abbrev CRITICAL_LEVEL : Int := 7

abbrev DEFAULT_UPDATE_INTERVAL : Int := 5
abbrev DEFAULT_LOW_LEVEL : Int := 20
abbrev DEFAULT_CRITICAL_LEVEL : Int := 5

/-- Embedding of `get_battery_status` (src/cbatticon.c lines 422-468): the switch on
`info->battery_status` followed by the charging-flag override
(`info->battery_flags & (1 << 3)`).  The C function writes `*status` and
returns TRUE unconditionally (after non-NULL argument checks); we return the
status value directly.  The `#if 0` block at lines 428-438 is disabled in the
source and is not part of the embedding. -/
def get_battery_status (info : apm_info) : Int :=
  let status :=
    if info.battery_status = 0 ∨ info.battery_status = 1 ∨ info.battery_status = 2 then
      DISCHARGING
    else if info.battery_status = 3 then
      (if info.battery_percentage = 100 then CHARGED else CHARGING)
    else if info.battery_status = 4 then
      MISSING
    else
      UNKNOWN
  if info.battery_flags.testBit 3 then
    (if info.battery_percentage = 100 then CHARGED else CHARGING)
  else
    status

/-- The estimation memo: the static variables `estimation_remaining_capacity`
(gdouble, sentinel -1) and `estimation_time` (gint, sentinel -1) of
src/cbatticon.c lines 163-164.  The companion static `estimation_timer` is
modelled by the `elapsed` argument of `get_battery_time_estimation`. -/
structure EstimationMemo where
  estimation_remaining_capacity : ℚ
  estimation_time : Int
deriving DecidableEq, Repr

/-- The C cast `(gint)` applied to a gdouble: truncation toward zero.
`Int.tdiv` is T-division and the denominator of a rational is positive, so
`q.num.tdiv q.den` truncates `q` toward zero. -/
def gint_of_gdouble (q : ℚ) : Int := q.num.tdiv q.den

/-- Embedding of `reset_battery_time_estimation` (lines 525-530): clears both memo fields
to the sentinel -1 and restarts the timer (the restart shows up as the elapsed
time the caller passes to the next estimation call). -/
def reset_battery_time_estimation : EstimationMemo := ⟨-1, -1⟩

/-- Embedding of `get_battery_time_estimation` (lines 497-523).  `elapsed` is the value
`g_timer_elapsed (estimation_timer, NULL)` would return at this call; the
`g_timer_start` in the update branch restarts that clock, so subsequent calls
receive the time elapsed since the last update.  On division by zero: the
source divides unguarded on IEEE doubles, so with `elapsed = 0` and a changed
percentage the C computation yields rate = ±infinity, seconds = ∓0.0, and
stores 0 minutes; the rational embedding (where division by zero yields 0)
computes rate = 0, seconds = 0 and also stores 0 minutes, hence it is
observationally faithful at that input. -/
def get_battery_time_estimation (remaining_capacity y elapsed : ℚ)
    (memo : EstimationMemo) : Int × EstimationMemo :=
  let memo :=
    if memo.estimation_remaining_capacity = -1 then
      { memo with estimation_remaining_capacity := remaining_capacity }
    else memo
  if remaining_capacity ≠ memo.estimation_remaining_capacity then
    let estimation_current_rate :=
      (remaining_capacity - memo.estimation_remaining_capacity) / elapsed
    let estimation_seconds := (y - remaining_capacity) / estimation_current_rate
    let time := gint_of_gdouble (estimation_seconds / 60)
    (time, ⟨remaining_capacity, time⟩)
  else
    (memo.estimation_time, memo)

/-- The configuration fields consumed by the engine: `update_interval`,
`low_level` and `critical_level` of `struct configuration` (lines 90-118).
The command strings and the notification flag only gate I/O side effects and
never feed back into the engine state, so they are outside the embedding. -/
structure Configuration where
  update_interval : Int
  low_level : Int
  critical_level : Int
deriving DecidableEq, Repr

/-- The normalization block at the end of `get_options` (lines 366-389):
a non-positive update interval and out-of-range levels are reset to their
defaults, and an inverted pair (critical_level > low_level) resets both levels
to the defaults (corrective, not fatal: the function still returns 1). -/
def get_options_normalize (c : Configuration) : Configuration :=
  let c1 :=
    if c.update_interval ≤ 0 then
      { c with update_interval := DEFAULT_UPDATE_INTERVAL }
    else c
  let c2 :=
    if c1.low_level < 0 ∨ c1.low_level > 100 then
      { c1 with low_level := DEFAULT_LOW_LEVEL }
    else c1
  let c3 :=
    if c2.critical_level < 0 ∨ c2.critical_level > 100 then
      { c2 with critical_level := DEFAULT_CRITICAL_LEVEL }
    else c2
  if c3.critical_level > c3.low_level then
    { c3 with critical_level := DEFAULT_CRITICAL_LEVEL, low_level := DEFAULT_LOW_LEVEL }
  else c3

/-- Embedding of `get_battery_charge` (lines 474-495), called with a non-NULL time pointer:
returns (percentage, time, updated estimator memo).  With remaining = false it
defers to the estimator with target 100; with remaining = true it converts the
hardware-reported time to whole minutes, rounding to the nearest minute when
the unit is seconds. -/
def get_battery_charge (info : apm_info) (remaining : Bool) (elapsed : ℚ)
    (memo : EstimationMemo) : Int × Int × EstimationMemo :=
  let percentage := info.battery_percentage
  if remaining = false then
    let r := get_battery_time_estimation (info.battery_percentage : ℚ) 100 elapsed memo
    (percentage, r.1, r.2)
  else if info.using_minutes then
    (percentage, info.battery_time, memo)
  else
    (percentage, (info.battery_time + 30).tdiv 60, memo)

/-- The static variables of `update_tray_icon_status` (lines 617-810):
`old_battery_status` (initially -1), the session latches `battery_low` and
`battery_critical`, the spawn request flags, together with the estimator
memo. -/
structure TrayState where
  old_battery_status : Int
  battery_low : Bool
  battery_critical : Bool
  spawn_command_low : Bool
  spawn_command_critical : Bool
  memo : EstimationMemo
deriving DecidableEq, Repr

/-- The static state at program start: `old_battery_status = -1`, all latches
and spawn flags cleared, estimator memo at the sentinels. -/
def initial_tray_state : TrayState := ⟨-1, false, false, false, false, ⟨-1, -1⟩⟩

/-- The observable threshold events of one poll: `fired_low` records that the
LOW_LEVEL notification was emitted and the low command spawn requested
(lines 732-739), `fired_critical` likewise for CRITICAL_LEVEL
(lines 741-748).  In the source both effects of a crossing happen exactly when
the corresponding latch is set. -/
structure PollEvents where
  fired_low : Bool
  fired_critical : Bool
deriving DecidableEq, Repr

/-- One poll of `update_tray_icon_status` (lines 617-810) on a sample `info`,
with `elapsed` the estimator-timer reading for this poll.

* MISSING / UNKNOWN / CHARGED run the HANDLE_BATTERY_STATUS macro, whose only
  state effect is `old_battery_status := battery_status` (the conditional
  assignment at lines 680-683 equals an unconditional one).
* CHARGING first resets the estimator memo when entering from a non-CHARGING
  state (lines 702-704), then updates the memo through
  `get_battery_charge (remaining = FALSE)`.
* DISCHARGING / NOTCHARGING (lines 713-808): on entering from a state other
  than DISCHARGING, `old_battery_status := DISCHARGING` and all four latches /
  spawn flags are cleared; then each un-triggered latch whose threshold is
  reached fires.  The spawn flags set here are consumed by the spawn sections
  in the same poll: the early `return` inside those sections re-reads the
  status from the same `info`, which still classifies as
  DISCHARGING/NOTCHARGING, so it never triggers and both spawn flags end the
  poll cleared.
* A status with no case label (LOW_LEVEL / CRITICAL_LEVEL, never produced by
  the classifier) falls through the switch and changes nothing. -/
def update_tray_icon_status (cfg : Configuration) (s : TrayState)
    (info : apm_info) (elapsed : ℚ) : TrayState × PollEvents :=
  let battery_status := get_battery_status info
  if battery_status = MISSING ∨ battery_status = UNKNOWN ∨ battery_status = CHARGED then
    ({ s with old_battery_status := battery_status }, ⟨false, false⟩)
  else if battery_status = CHARGING then
    let memo0 :=
      if s.old_battery_status ≠ CHARGING then reset_battery_time_estimation else s.memo
    let r := get_battery_charge info false elapsed memo0
    ({ s with old_battery_status := CHARGING, memo := r.2.2 }, ⟨false, false⟩)
  else if battery_status = DISCHARGING ∨ battery_status = NOTCHARGING then
    let r := get_battery_charge info true elapsed s.memo
    let percentage := r.1
    let new_session := s.old_battery_status ≠ DISCHARGING
    let battery_low0 := if new_session then false else s.battery_low
    let battery_critical0 := if new_session then false else s.battery_critical
    let fired_low := !battery_low0 && decide (percentage ≤ cfg.low_level)
    let fired_critical := !battery_critical0 && decide (percentage ≤ cfg.critical_level)
    ({ old_battery_status := DISCHARGING,
       battery_low := battery_low0 || fired_low,
       battery_critical := battery_critical0 || fired_critical,
       spawn_command_low := false,
       spawn_command_critical := false,
       memo := s.memo }, ⟨fired_low, fired_critical⟩)
  else
    (s, ⟨false, false⟩)

/-- Number of low-crossing fires over a sequence of polls, each poll given as
(sample, elapsed estimator seconds), processed left to right. -/
def countLowFires (cfg : Configuration) : TrayState → List (apm_info × ℚ) → Nat
  | _, [] => 0
  | s, p :: ps =>
    let r := update_tray_icon_status cfg s p.1 p.2
    (if r.2.fired_low then 1 else 0) + countLowFires cfg r.1 ps

/-- Embedding of `get_time_string` (lines 938-963): NULL (here `none`) for negative
minutes; otherwise the hours-and-minutes phrase, with `g_dngettext`'s English
plural rule (singular exactly when the count is 1). -/
def get_time_string (minutes : Int) : Option String :=
  if minutes < 0 then none
  else
    let hours := minutes.tdiv 60
    let m := minutes.tmod 60
    if hours > 0 then
      let minutes_string := toString m ++ (if m = 1 then " minute" else " minutes")
      some (toString hours ++ (if hours = 1 then " hour, " else " hours, ") ++
        minutes_string ++ " remaining")
    else
      some (toString m ++ (if m = 1 then " minute remaining" else " minutes remaining"))

/-- C6: for every sample whose raw status code is 0x00 (High), 0x01 (Low) or
0x02 (Critical) and whose charging-override flag (bit 3 of battery_flags) is
not set, `get_battery_status` classifies the state as DISCHARGING, regardless
of the sample's percentage. -/
theorem c6_level_codes_discharging (info : apm_info)
    (hcode : info.battery_status = 0 ∨ info.battery_status = 1 ∨ info.battery_status = 2)
    (hflag : info.battery_flags.testBit 3 = false) :
    get_battery_status info = DISCHARGING := by
  unfold get_battery_status
  rw [hflag]
  simp only [Bool.false_eq_true, if_false]
  rw [if_pos hcode]

/-- Witness for C6 at a concrete sample: code 0x01 (Low), 37 %, flags 0. -/
theorem c6_level_codes_discharging_witness :
    get_battery_status ⟨1, 37, 0, -1, false⟩ = DISCHARGING :=
  c6_level_codes_discharging ⟨1, 37, 0, -1, false⟩ (by decide) (by decide)

/-- C7: `get_battery_status` yields CHARGED iff (code = Charging (0x03) or the
charging-override flag is set) and percentage = 100; and whenever that charging
condition holds with percentage < 100 it yields CHARGING (the flag overriding
the code-based result). -/
theorem c7_charged_iff (info : apm_info) :
    (get_battery_status info = CHARGED ↔
      ((info.battery_status = 3 ∨ info.battery_flags.testBit 3 = true) ∧
        info.battery_percentage = 100)) ∧
    ((info.battery_status = 3 ∨ info.battery_flags.testBit 3 = true) →
      info.battery_percentage < 100 → get_battery_status info = CHARGING) := by
  unfold get_battery_status
  constructor
  · cases hb : info.battery_flags.testBit 3 <;> simp [hb] <;>
      split_ifs <;> simp_all <;> omega
  · intro hcond hlt
    have hne : info.battery_percentage ≠ 100 := by omega
    cases hb : info.battery_flags.testBit 3 <;> simp [hb, hne] <;>
      split_ifs <;> simp_all <;> omega

/-- Witness for C7 at concrete samples: (code 3, 100 %, flags 0) is CHARGED and
(code 0, 55 %, flags bit 3 set) is CHARGING. -/
theorem c7_charged_iff_witness :
    get_battery_status ⟨3, 100, 0, -1, false⟩ = CHARGED ∧
    get_battery_status ⟨0, 55, 8, -1, false⟩ = CHARGING :=
  ⟨(c7_charged_iff ⟨3, 100, 0, -1, false⟩).1.mpr ⟨Or.inl rfl, rfl⟩,
   (c7_charged_iff ⟨0, 55, 8, -1, false⟩).2 (Or.inr (by decide)) (by decide)⟩

/-- C10: for every possible apm_info sample, `get_battery_status` never
assigns the NOTCHARGING state (stated with boolean equality so the statement
is hypothesis-free). -/
theorem c10_notcharging_unreachable (info : apm_info) :
    (get_battery_status info == NOTCHARGING) = false := by
  unfold get_battery_status
  split_ifs <;> decide

/-- C1 counterexample: with a freshly reset memo, seeding at percentage 80 and
then calling after 60 elapsed seconds with percentage 70 and target 0 returns
a minutes value of 7, not 420: the source computes estimation_seconds =
(0 - 70) / ((70 - 80) / 60) = 420 *seconds* and then divides by 60.0 before
the (gint) cast, so the stored/returned minutes value is trunc(420/60) = 7. -/
theorem c1_second_call_returns_7_not_420 :
    (get_battery_time_estimation 70 0 60
      (get_battery_time_estimation 80 0 0 reset_battery_time_estimation).2).1 = 7 ∧
    ((get_battery_time_estimation 70 0 60
      (get_battery_time_estimation 80 0 0 reset_battery_time_estimation).2).1
        == (420 : Int)) = false := by
  unfold get_battery_time_estimation reset_battery_time_estimation gint_of_gdouble
  norm_num

/-- C1 (amended): starting from a freshly reset memo, a first call with
percentage 80 seeds the memo and returns the absent sentinel -1; a second call
after 60 elapsed seconds with percentage 70 and target 0 stores and returns a
minutes value of 7, computed as rate = (70 - 80)/60 = -1/6 per second,
seconds = (0 - 70)/(-1/6) = 420, minutes = trunc(420/60.0) = 7. -/
theorem c1_estimation_scenario :
    get_battery_time_estimation 80 0 0 reset_battery_time_estimation =
      (-1, ⟨80, -1⟩) ∧
    get_battery_time_estimation 70 0 60 ⟨80, -1⟩ = (7, ⟨70, 7⟩) := by
  constructor
  · unfold get_battery_time_estimation reset_battery_time_estimation
    norm_num
  · unfold get_battery_time_estimation gint_of_gdouble
    norm_num

/-- C2: the source has no guard on the elapsed-time divisor.  With remembered
capacity 80 and a call at percentage 70 with zero elapsed time, the call
stores and returns a definite 0-minute estimate (IEEE evaluation: rate is
(-10)/0.0 = -inf, seconds is (-70) / (-inf) = +0.0, (gint)(0.0/60.0) = 0)
instead of the absent sentinel -1 that "no estimate available" would
require. -/
theorem c2_elapsed_zero_stores_zero :
    get_battery_time_estimation 70 0 0 ⟨80, -1⟩ = (0, ⟨70, 0⟩) ∧
    ((get_battery_time_estimation 70 0 0 ⟨80, -1⟩).1 == (-1 : Int)) = false := by
  unfold get_battery_time_estimation gint_of_gdouble
  norm_num

/-- C3: every call whose percentage equals the memo's remembered capacity
returns the previously memoized estimate and leaves the memo unchanged; and in
the concrete fresh-memo scenario, a first call at percentage 80 followed by a
second call at percentage 80 makes the second call return the absent
sentinel -1. -/
theorem c3_unchanged_percentage :
    (∀ (memo : EstimationMemo) (p y e : ℚ),
      p = memo.estimation_remaining_capacity →
        get_battery_time_estimation p y e memo = (memo.estimation_time, memo)) ∧
    (get_battery_time_estimation 80 0 0
      (get_battery_time_estimation 80 0 0 reset_battery_time_estimation).2).1 = -1 := by
  constructor
  · intro memo p y e hp
    obtain ⟨rc, t⟩ := memo
    simp only at hp
    subst hp
    unfold get_battery_time_estimation
    by_cases h : p = (-1 : ℚ) <;> simp [h]
  · unfold get_battery_time_estimation reset_battery_time_estimation
    norm_num

/-- Witness for C3: a call at percentage 80 against a memo remembering
capacity 80 and estimate 7 returns (7, unchanged memo). -/
theorem c3_unchanged_percentage_witness :
    get_battery_time_estimation 80 5 99 ⟨80, 7⟩ = (7, ⟨80, 7⟩) :=
  c3_unchanged_percentage.1 ⟨80, 7⟩ 80 5 99 rfl

/-- Helper: on a poll classified DISCHARGING or NOTCHARGING, one step of
`update_tray_icon_status` reduces to the threshold-tracker form. -/
theorem update_discharging_eq (cfg : Configuration) (s : TrayState)
    (info : apm_info) (e : ℚ)
    (h : get_battery_status info = DISCHARGING ∨ get_battery_status info = NOTCHARGING) :
    update_tray_icon_status cfg s info e =
      (let battery_low0 :=
        if s.old_battery_status ≠ DISCHARGING then false else s.battery_low
       let battery_critical0 :=
        if s.old_battery_status ≠ DISCHARGING then false else s.battery_critical
       let fired_low :=
        !battery_low0 && decide (info.battery_percentage ≤ cfg.low_level)
       let fired_critical :=
        !battery_critical0 && decide (info.battery_percentage ≤ cfg.critical_level)
       (⟨DISCHARGING, battery_low0 || fired_low, battery_critical0 || fired_critical,
          false, false, s.memo⟩,
        ⟨fired_low, fired_critical⟩)) := by
  unfold update_tray_icon_status get_battery_charge
  rcases h with h | h <;> rw [h] <;>
    cases hm : info.using_minutes <;> simp [hm] <;> norm_num

/-- Helper: once the low latch is set inside a discharging session, a further
DISCHARGING/NOTCHARGING poll fires nothing and keeps the latch set. -/
theorem low_latch_persists (cfg : Configuration) (s : TrayState)
    (info : apm_info) (e : ℚ)
    (h : get_battery_status info = DISCHARGING ∨ get_battery_status info = NOTCHARGING)
    (h1 : s.battery_low = true) (h2 : s.old_battery_status = DISCHARGING) :
    (update_tray_icon_status cfg s info e).2.fired_low = false ∧
    (update_tray_icon_status cfg s info e).1.battery_low = true ∧
    (update_tray_icon_status cfg s info e).1.old_battery_status = DISCHARGING := by
  rw [update_discharging_eq cfg s info e h]
  simp [h1, h2]

/-- Helper: a low fire sets the latch and marks the session as discharging. -/
theorem low_fire_sets_latch (cfg : Configuration) (s : TrayState)
    (info : apm_info) (e : ℚ)
    (h : get_battery_status info = DISCHARGING ∨ get_battery_status info = NOTCHARGING)
    (hf : (update_tray_icon_status cfg s info e).2.fired_low = true) :
    (update_tray_icon_status cfg s info e).1.battery_low = true ∧
    (update_tray_icon_status cfg s info e).1.old_battery_status = DISCHARGING := by
  rw [update_discharging_eq cfg s info e h] at hf ⊢
  simp only at hf ⊢
  simp_all

/-- Helper: with the low latch set and the session marked discharging, a run
of DISCHARGING/NOTCHARGING polls fires no low crossing at all. -/
theorem no_low_fires_after_latch (cfg : Configuration)
    (polls : List (apm_info × ℚ)) :
    ∀ s : TrayState,
      (∀ p ∈ polls,
        get_battery_status p.1 = DISCHARGING ∨ get_battery_status p.1 = NOTCHARGING) →
      s.battery_low = true → s.old_battery_status = DISCHARGING →
      countLowFires cfg s polls = 0 := by
  induction polls with
  | nil => intro s _ _ _; rfl
  | cons p ps ih =>
    intro s h h1 h2
    have hp := h p (List.mem_cons_self p ps)
    have hstep := low_latch_persists cfg s p.1 p.2 hp h1 h2
    rw [countLowFires]
    rw [hstep.1]
    simp only [if_false, Bool.false_eq_true]
    have := ih (update_tray_icon_status cfg s p.1 p.2).1
      (fun q hq => h q (List.mem_cons_of_mem p hq)) hstep.2.1 hstep.2.2
    omega

/-- C4: within one uninterrupted discharging session (every poll in the run
classified DISCHARGING or NOTCHARGING), the threshold tracker fires the low
crossing at most once, for every starting state, configuration, poll sequence
and percentage fluctuation. -/
theorem c4_low_fires_at_most_once (cfg : Configuration) (s : TrayState)
    (polls : List (apm_info × ℚ))
    (h : ∀ p ∈ polls,
      get_battery_status p.1 = DISCHARGING ∨ get_battery_status p.1 = NOTCHARGING) :
    countLowFires cfg s polls ≤ 1 := by
  induction polls generalizing s with
  | nil => simp [countLowFires]
  | cons p ps ih =>
    have hp := h p (List.mem_cons_self p ps)
    have hps : ∀ q ∈ ps,
        get_battery_status q.1 = DISCHARGING ∨ get_battery_status q.1 = NOTCHARGING :=
      fun q hq => h q (List.mem_cons_of_mem p hq)
    rw [countLowFires]
    by_cases hf : (update_tray_icon_status cfg s p.1 p.2).2.fired_low = true
    · have hl := low_fire_sets_latch cfg s p.1 p.2 hp hf
      have h0 := no_low_fires_after_latch cfg ps
        (update_tray_icon_status cfg s p.1 p.2).1 hps hl.1 hl.2
      rw [hf, h0]
      simp
    · have hf' : (update_tray_icon_status cfg s p.1 p.2).2.fired_low = false :=
        Bool.eq_false_iff.mpr hf
      rw [hf']
      simpa using ih (update_tray_icon_status cfg s p.1 p.2).1 hps

/-- Witness for C4: a concrete three-poll discharging run (percentages 21,
18, 15 with thresholds 20/5) fires the low crossing at most once. -/
theorem c4_low_fires_at_most_once_witness :
    countLowFires ⟨5, 20, 5⟩ initial_tray_state
      [(⟨0, 21, 0, -1, false⟩, 5), (⟨0, 18, 0, -1, false⟩, 5),
       (⟨0, 15, 0, -1, false⟩, 5)] ≤ 1 :=
  c4_low_fires_at_most_once ⟨5, 20, 5⟩ initial_tray_state _ (by
    intro p hp
    simp only [List.mem_cons, List.not_mem_nil, or_false] at hp
    rcases hp with rfl | rfl | rfl <;> exact Or.inl (by decide))

/-- C5: on the first poll of a new discharging session (previous classified
state was not DISCHARGING), if percentage is already at or below the critical
level and critical_level < low_level, both the low and the critical crossing
fire in that same single observation and both latches become triggered. -/
theorem c5_both_fire_first_poll (cfg : Configuration) (s : TrayState)
    (info : apm_info) (e : ℚ)
    (h : get_battery_status info = DISCHARGING ∨ get_battery_status info = NOTCHARGING)
    (hold : s.old_battery_status ≠ DISCHARGING)
    (hpc : info.battery_percentage ≤ cfg.critical_level)
    (hcl : cfg.critical_level < cfg.low_level) :
    (update_tray_icon_status cfg s info e).2 = ⟨true, true⟩ ∧
    (update_tray_icon_status cfg s info e).1.battery_low = true ∧
    (update_tray_icon_status cfg s info e).1.battery_critical = true := by
  have hpl : info.battery_percentage ≤ cfg.low_level := by omega
  rw [update_discharging_eq cfg s info e h]
  simp [hold, hpl, hpc]

/-- Witness for C5: first poll (old status -1) at percentage 3 with thresholds
low 20 / critical 5 fires both crossings at once. -/
theorem c5_both_fire_first_poll_witness :
    (update_tray_icon_status ⟨5, 20, 5⟩ initial_tray_state
      ⟨0, 3, 0, -1, false⟩ 0).2 = ⟨true, true⟩ ∧
    (update_tray_icon_status ⟨5, 20, 5⟩ initial_tray_state
      ⟨0, 3, 0, -1, false⟩ 0).1.battery_low = true ∧
    (update_tray_icon_status ⟨5, 20, 5⟩ initial_tray_state
      ⟨0, 3, 0, -1, false⟩ 0).1.battery_critical = true :=
  c5_both_fire_first_poll ⟨5, 20, 5⟩ initial_tray_state ⟨0, 3, 0, -1, false⟩ 0
    (Or.inl (by decide)) (by decide) (by decide) (by decide)

/-- C8: configuration normalization in `get_options`: every pair of in-range
levels with critical_level > low_level is reset to the fixed defaults
low_level = 20, critical_level = 5; and after normalization
critical_level ≤ low_level holds for every input. -/
theorem c8_normalization (c : Configuration) :
    ((0 ≤ c.low_level ∧ c.low_level ≤ 100 ∧ 0 ≤ c.critical_level ∧
      c.critical_level ≤ 100 ∧ c.low_level < c.critical_level) →
      ((get_options_normalize c).low_level = 20 ∧
       (get_options_normalize c).critical_level = 5)) ∧
    (get_options_normalize c).critical_level ≤ (get_options_normalize c).low_level := by
  obtain ⟨ui, low, crit⟩ := c
  by_cases h1 : ui ≤ 0 <;> by_cases h2 : low < 0 ∨ low > 100 <;>
    by_cases h3 : crit < 0 ∨ crit > 100 <;>
    simp only [get_options_normalize, DEFAULT_LOW_LEVEL, DEFAULT_CRITICAL_LEVEL,
      DEFAULT_UPDATE_INTERVAL, h1, h2, h3, if_true, if_false, ite_true, ite_false] <;>
    split_ifs <;> simp_all <;> omega

/-- Witness for C8: inverted in-range inputs low_level = 5,
critical_level = 20 are corrected to the defaults 20 / 5. -/
theorem c8_normalization_witness :
    (get_options_normalize ⟨5, 5, 20⟩).low_level = 20 ∧
    (get_options_normalize ⟨5, 5, 20⟩).critical_level = 5 :=
  (c8_normalization ⟨5, 5, 20⟩).1 (by norm_num)

/-- C9: `get_time_string` produces no time string (NULL, here `none`) for
every negative minutes value (the absent sentinel, -1 included), and produces
an hours-and-minutes phrase for every minutes ≥ 0. -/
theorem c9_time_string (m : Int) :
    (m < 0 → get_time_string m = none) ∧
    (0 ≤ m → (get_time_string m).isSome = true) := by
  constructor
  · intro h
    unfold get_time_string
    rw [if_pos h]
  · intro h
    unfold get_time_string
    rw [if_neg (by omega)]
    dsimp only
    split <;> rfl

/-- Witness for C9: minutes = -1 renders nothing; minutes = 125 renders a
phrase. -/
theorem c9_time_string_witness :
    get_time_string (-1) = none ∧ (get_time_string 125).isSome = true :=
  ⟨(c9_time_string (-1)).1 (by decide), (c9_time_string 125).2 (by decide)⟩
